import Mathlib

/-!
Verification development for the technical-indicator core of the
ai-stock-selector repository.

The indicator library (`src/backend/app/utils/indicators.py`) delegates the
numeric kernels to TA-Lib and represents "not computable here" by Python
`None` (below-period guard) or by TA-Lib's warm-up `NaN` entries.  The
embedding models a float that carries a value as `some (q : ℚ)` and an
absent/NaN entry as `none`.  TA-Lib rejects out-of-range period parameters
(`timeperiod < 2` for SMA/EMA/RSI/BBANDS and the MACD periods, smoothing
periods `< 1` for STOCH); the source catches that exception and returns an
all-`None` list of the input length, which the kernel models below return
directly in that case.  One numeric stand-in: Bollinger band offsets use the
population variance of the window where TA-Lib uses its square root (the
standard deviation), since the square root of a rational is in general not
rational; no claim refers to the numeric band values, only to their
definedness, alignment and count.
-/

/-- Arithmetic mean of a rational list (0 for the empty list, which the
callers below never hit on a defined output position). -/
def listMean (xs : List ℚ) : ℚ := xs.sum / (xs.length : ℚ)

/-- The trailing window `xs[i-p+1 : i+1]` in Python slice notation: at most
`p` elements ending at index `i`. -/
def windowAt (xs : List ℚ) (i p : ℕ) : List ℚ := (xs.drop (i + 1 - p)).take p

/-- One output per input, threading a state: the shape shared by the EMA and
Wilder recurrences. -/
def scanMap {σ : Type} (f : σ → ℚ → σ × ℚ) : σ → List ℚ → List ℚ
  | _, [] => []
  | s, x :: rest =>
    match f s x with
    | (s2, v) => v :: scanMap f s2 rest

/-- `talib.SMA(xs, timeperiod=p)`: NaN (`none`) for the first `p - 1`
positions, then the mean of the trailing `p`-window. -/
def talibSMA (xs : List ℚ) (p : ℕ) : List (Option ℚ) :=
  if p < 2 then List.replicate xs.length none
  else (List.range xs.length).map fun i =>
    if i + 1 < p then none else some (listMean (windowAt xs i p))

/-- `talib.EMA(xs, timeperiod=p)`: seeded at index `p - 1` by the simple
average of the first `p` values, then the recurrence with smoothing factor
`2 / (p + 1)`. -/
def talibEMA (xs : List ℚ) (p : ℕ) : List (Option ℚ) :=
  if p < 2 ∨ xs.length < p then List.replicate xs.length none
  else
    let a : ℚ := 2 / ((p : ℚ) + 1)
    let seed := listMean (xs.take p)
    List.replicate (p - 1) none ++ [some seed] ++
      (scanMap (fun prev x => (a * x + (1 - a) * prev, a * x + (1 - a) * prev))
        seed (xs.drop p)).map some

/-- The RSI value from a pair of Wilder-smoothed average gain and loss; a
zero denominator (flat history) yields 0 as in TA-Lib. -/
def rsiVal (g l : ℚ) : ℚ := if g + l = 0 then 0 else 100 * g / (g + l)

/-- `talib.RSI(xs, timeperiod=p)`: NaN (`none`) up to and including index
`p - 1`; the first value at index `p` uses the plain averages of the first
`p` differences and later values use Wilder smoothing. -/
def talibRSI (xs : List ℚ) (p : ℕ) : List (Option ℚ) :=
  if p < 2 ∨ xs.length ≤ p then List.replicate xs.length none
  else
    let diffs := List.zipWith (fun b a => b - a) (xs.drop 1) xs
    let g0 := listMean ((diffs.take p).map fun d => max d 0)
    let l0 := listMean ((diffs.take p).map fun d => max (-d) 0)
    List.replicate p none ++ [some (rsiVal g0 l0)] ++
      (scanMap
        (fun gl d =>
          let g2 := (gl.1 * ((p : ℚ) - 1) + max d 0) / (p : ℚ)
          let l2 := (gl.2 * ((p : ℚ) - 1) + max (-d) 0) / (p : ℚ)
          ((g2, l2), rsiVal g2 l2))
        (g0, l0) (diffs.drop p)).map some

/-- SMA over an optional list: defined where the whole trailing window is
defined.  Used for the STOCH smoothing stages. -/
def optSMA (l : List (Option ℚ)) (p : ℕ) : List (Option ℚ) :=
  (List.range l.length).map fun i =>
    if i + 1 < p then none
    else
      match ((l.drop (i + 1 - p)).take p).foldr
          (fun o acc => match o, acc with
            | some v, some vs => some (v :: vs)
            | _, _ => none) (some []) with
      | some vs => some (listMean vs)
      | none => none

/-- `talib.MACD(xs, fast, slow, signal)`: the fast/slow EMA difference,
its `signal`-period EMA realigned to the input, and their difference; all
three outputs are NaN (`none`) until index `slow - 1 + signal - 1`. -/
def talibMACD (xs : List ℚ) (fast slow signal : ℕ) :
    List (Option ℚ) × List (Option ℚ) × List (Option ℚ) :=
  if fast < 2 ∨ slow < 2 ∨ signal < 1 then
    (List.replicate xs.length none, List.replicate xs.length none,
      List.replicate xs.length none)
  else
    let eFast := talibEMA xs fast
    let eSlow := talibEMA xs slow
    let raw := List.zipWith
      (fun a b => match a, b with
        | some x, some y => some (x - y)
        | _, _ => none) eFast eSlow
    let rawVals := raw.filterMap id
    let sig := talibEMA rawVals signal
    let lb := slow - 1
    let macdLine := (List.range xs.length).map fun i =>
      if i < lb + (signal - 1) then none else raw.getD i none
    let sigLine := (List.range xs.length).map fun i =>
      if i < lb then none else sig.getD (i - lb) none
    let histLine := List.zipWith
      (fun a b => match a, b with
        | some x, some y => some (x - y)
        | _, _ => none) macdLine sigLine
    (macdLine, sigLine, histLine)

/-- `talib.BBANDS(xs, timeperiod=p, nbdevup=w, nbdevdn=w)` as
(upper, middle, lower); the window deviation is modelled by the population
variance (see the file comment). -/
def talibBBANDS (xs : List ℚ) (p : ℕ) (w : ℚ) :
    List (Option ℚ) × List (Option ℚ) × List (Option ℚ) :=
  if p < 2 then
    (List.replicate xs.length none, List.replicate xs.length none,
      List.replicate xs.length none)
  else
    let dev := fun win => listMean ((win : List ℚ).map fun x =>
      (x - listMean win) * (x - listMean win))
    let mk := fun (off : ℚ) => (List.range xs.length).map fun i =>
      if i + 1 < p then none
      else some (listMean (windowAt xs i p) + off * dev (windowAt xs i p))
    (mk w, mk 0, mk (-w))

/-- `talib.STOCH(high, low, close, fastk_period, slowk_period, slowd_period)`
returning (slow %K, slow %D), aligned to the close list; a flat window
(zero range) yields an undefined raw %K instead of a division crash. -/
def talibSTOCH (highs lows closes : List ℚ) (fastk slowk slowd : ℕ) :
    List (Option ℚ) × List (Option ℚ) :=
  if fastk < 1 ∨ slowk < 1 ∨ slowd < 1 then
    (List.replicate closes.length none, List.replicate closes.length none)
  else
    let rawk := (List.range closes.length).map fun i =>
      if i + 1 < fastk then none
      else
        let hh := ((windowAt highs i fastk).max?).getD 0
        let ll := ((windowAt lows i fastk).min?).getD 0
        if hh - ll = 0 then none
        else some (100 * (closes.getD i 0 - ll) / (hh - ll))
    let k := optSMA rawk slowk
    let d := optSMA k slowd
    (k, d)

/-- `talib.WILLR(high, low, close, timeperiod=p)`, aligned to the close
list. -/
def talibWILLR (highs lows closes : List ℚ) (p : ℕ) : List (Option ℚ) :=
  if p < 2 then List.replicate closes.length none
  else (List.range closes.length).map fun i =>
    if i + 1 < p then none
    else
      let hh := ((windowAt highs i p).max?).getD 0
      let ll := ((windowAt lows i p).min?).getD 0
      if hh - ll = 0 then none
      else some ((hh - closes.getD i 0) / (hh - ll) * (-100))

/-- `TechnicalIndicators.calculate_ma`: below-period guard, then
`talib.SMA`. -/
def calculate_ma (prices : List ℚ) (period : ℕ) : List (Option ℚ) :=
  if prices.length < period then List.replicate prices.length none
  else talibSMA prices period

/-- `TechnicalIndicators.calculate_ema`. -/
def calculate_ema (prices : List ℚ) (period : ℕ) : List (Option ℚ) :=
  if prices.length < period then List.replicate prices.length none
  else talibEMA prices period

/-- `TechnicalIndicators.calculate_rsi` (source default `period = 14`). -/
def calculate_rsi (prices : List ℚ) (period : ℕ) : List (Option ℚ) :=
  if prices.length < period then List.replicate prices.length none
  else talibRSI prices period

/-- The dict returned by `TechnicalIndicators.calculate_macd`. -/
structure MacdResult where
  macd : List (Option ℚ)
  signal : List (Option ℚ)
  histogram : List (Option ℚ)
deriving DecidableEq

/-- `TechnicalIndicators.calculate_macd` (source defaults 12/26/9): the
guard compares the input length against the slow period. -/
def calculate_macd (prices : List ℚ) (fast slow signal : ℕ) : MacdResult :=
  if prices.length < slow then
    { macd := List.replicate prices.length none
      signal := List.replicate prices.length none
      histogram := List.replicate prices.length none }
  else
    match talibMACD prices fast slow signal with
    | (m, s, h) => { macd := m, signal := s, histogram := h }

/-- The dict returned by `TechnicalIndicators.calculate_bollinger_bands`. -/
structure BbResult where
  upper : List (Option ℚ)
  middle : List (Option ℚ)
  lower : List (Option ℚ)
deriving DecidableEq

/-- `TechnicalIndicators.calculate_bollinger_bands` (source defaults
`period = 20`, `std = 2.0`). -/
def calculate_bollinger_bands (prices : List ℚ) (period : ℕ) (std : ℚ) :
    BbResult :=
  if prices.length < period then
    { upper := List.replicate prices.length none
      middle := List.replicate prices.length none
      lower := List.replicate prices.length none }
  else
    match talibBBANDS prices period std with
    | (u, m, l) => { upper := u, middle := m, lower := l }

/-- The dict returned by `TechnicalIndicators.calculate_stochastic`. -/
structure KdResult where
  k : List (Option ℚ)
  d : List (Option ℚ)
deriving DecidableEq

/-- `TechnicalIndicators.calculate_stochastic` (source defaults
`k_period = 14`, `d_period = 3`): the guard checks the high list against
`k_period`, the output is aligned to the close list, and the source passes
`d_period` as both the slow-%K and the slow-%D smoothing period. -/
def calculate_stochastic (high_prices low_prices close_prices : List ℚ)
    (k_period d_period : ℕ) : KdResult :=
  if high_prices.length < k_period then
    { k := List.replicate close_prices.length none
      d := List.replicate close_prices.length none }
  else
    match talibSTOCH high_prices low_prices close_prices k_period d_period
        d_period with
    | (k, d) => { k := k, d := d }

/-- `TechnicalIndicators.calculate_volume_ma`: integer volumes converted to
float, then `talib.SMA`. -/
def calculate_volume_ma (volumes : List ℤ) (period : ℕ) : List (Option ℚ) :=
  if volumes.length < period then List.replicate volumes.length none
  else talibSMA (volumes.map (Int.cast : ℤ → ℚ)) period

/-- The dict returned by `TechnicalIndicators.calculate_support_resistance`. -/
structure SrResult where
  support : List (Option ℚ)
  resistance : List (Option ℚ)
deriving DecidableEq

/-- `TechnicalIndicators.calculate_support_resistance` (source default
`period = 20`): rolling min of lows / max of highs over the trailing
window.  In the source an empty slice (possible only for misaligned input
lengths) raises a `ValueError` that the catch-all turns into the all-`None`
lists; the model renders exactly those positions `none`. -/
def calculate_support_resistance (high_prices low_prices close_prices : List ℚ)
    (period : ℕ) : SrResult :=
  if close_prices.length < period then
    { support := List.replicate close_prices.length none
      resistance := List.replicate close_prices.length none }
  else
    { support := (List.range close_prices.length).map fun i =>
        if i < period - 1 then none else (windowAt low_prices i period).min?
      resistance := (List.range close_prices.length).map fun i =>
        if i < period - 1 then none else (windowAt high_prices i period).max? }

/-- `TechnicalIndicators.calculate_price_momentum` (source default
`period = 10`): percentage change against the close `period` bars earlier,
with the zero-divisor guard of the source. -/
def calculate_price_momentum (prices : List ℚ) (period : ℕ) :
    List (Option ℚ) :=
  if prices.length < period then List.replicate prices.length none
  else (List.range prices.length).map fun i =>
    if i < period then none
    else
      let current_price := prices.getD i 0
      let past_price := prices.getD (i - period) 0
      if past_price ≠ 0 then
        some ((current_price - past_price) / past_price * 100)
      else none

/-- `TechnicalIndicators.calculate_volume_ratio` (source default
`period = 5`): each volume divided by its volume moving average where the
latter is defined and non-zero. -/
def calculate_volume_ratio (volumes : List ℤ) (period : ℕ) :
    List (Option ℚ) :=
  let volume_ma := calculate_volume_ma volumes period
  (List.range volumes.length).map fun i =>
    match volume_ma.getD i none with
    | some m => if m ≠ 0 then some ((volumes.getD i 0 : ℚ) / m) else none
    | none => none

/-- `TechnicalIndicators.calculate_williams_r` (source default
`period = 14`). -/
def calculate_williams_r (high_prices low_prices close_prices : List ℚ)
    (period : ℕ) : List (Option ℚ) :=
  if close_prices.length < period then
    List.replicate close_prices.length none
  else talibWILLR high_prices low_prices close_prices period

/-- One raw daily bar as read from storage (`DailyPrice` row).  A source
record whose attribute is `None` — the "missing required field" case — is
modelled by a `none` field. -/
structure RawRecord where
  trade_date : ℕ
  open_price : Option ℚ
  high_price : Option ℚ
  low_price : Option ℚ
  close_price : Option ℚ
  volume : Option ℤ
deriving DecidableEq

/-- The ascending-by-date comparison `prepare_stock_data_for_indicators`
sorts with (`key=lambda x: x.trade_date`). -/
def rdateLe (a b : RawRecord) : Prop := a.trade_date ≤ b.trade_date

instance : DecidableRel rdateLe := fun a b => Nat.decLe a.trade_date b.trade_date

instance : IsTotal RawRecord rdateLe := ⟨fun a b => Nat.le_total a.trade_date b.trade_date⟩

instance : IsTrans RawRecord rdateLe := ⟨fun _ _ _ h1 h2 => Nat.le_trans h1 h2⟩

/-- The descending comparison of the storage query
(`order_by(DailyPrice.trade_date.desc())`). -/
def rdateGe (a b : RawRecord) : Prop := b.trade_date ≤ a.trade_date

instance : DecidableRel rdateGe := fun a b => Nat.decLe b.trade_date a.trade_date

/-- Collects a list of optional values, failing on the first `none` — the
behaviour of the list comprehensions in `prepare_stock_data_for_indicators`,
where `float(None)` raises and the catch-all returns the empty dict. -/
def optList {α : Type} : List (Option α) → Option (List α)
  | [] => some []
  | none :: _ => none
  | some x :: rest =>
    match optList rest with
    | some xs => some (x :: xs)
    | none => none

/-- The dict built by `prepare_stock_data_for_indicators`: parallel
per-field lists, dates ascending.  The `open` key of the source dict is the
`open_` field (Lean reserves `open`). -/
structure StockData where
  dates : List ℕ
  open_ : List ℚ
  high : List ℚ
  low : List ℚ
  close : List ℚ
  volume : List ℤ
deriving DecidableEq

/-- The per-field list comprehensions of
`prepare_stock_data_for_indicators`, run over the already sorted records in
source order: the first `None` attribute raises, which the catch-all turns
into the empty dict (`none` here). -/
def collectFields (sorted_records : List RawRecord) : Option StockData :=
  match optList (sorted_records.map fun r => r.open_price),
      optList (sorted_records.map fun r => r.high_price),
      optList (sorted_records.map fun r => r.low_price),
      optList (sorted_records.map fun r => r.close_price),
      optList (sorted_records.map fun r => r.volume) with
  | some os, some hs, some ls, some cs, some vs =>
      some
        { dates := sorted_records.map fun r => r.trade_date
          open_ := os, high := hs, low := ls, close := cs, volume := vs }
  | _, _, _, _, _ => none

/-- `prepare_stock_data_for_indicators`: sorts the records by trade date
ascending and extracts the per-field lists.  The source returns the empty
dict `{}` both for empty input and when any record misses a required field
(the comprehension raises and the catch-all swallows it); the model returns
`none` in exactly those cases and performs no further validation. -/
def prepare_stock_data_for_indicators (price_records : List RawRecord) :
    Option StockData :=
  if price_records.isEmpty then none
  else collectFields (List.insertionSort rdateLe price_records)

/-- The keys `calculate_all_indicators` can place in its result dict
(besides `dates`, which `calculate_indicator_for_date` filters out). -/
inductive DictKey where
  | ma_5 | ma_10 | ma_20 | ma_60 | ma_120 | ma_240
  | ema_12 | ema_26
  | rsi_14
  | macd | macd_signal | macd_histogram
  | bb_upper | bb_middle | bb_lower
  | k_value | d_value
  | volume_ma_5 | volume_ma_20 | volume_ratio
  | support_level | resistance_level
  | price_momentum
  | williams_r
deriving DecidableEq

/-- Whether the key is a column of the `TechnicalIndicator` ORM model
(`src/backend/app/models/stock.py`): `volume_ratio`, `price_momentum` and
`williams_r` are computed by the library but have no column. -/
def isColumn : DictKey → Bool
  | DictKey.volume_ratio => false
  | DictKey.price_momentum => false
  | DictKey.williams_r => false
  | _ => true

/-- `TechnicalIndicators.calculate_all_indicators` on a non-empty close
list: the result dict as an association list in the source's insertion
order; the conditional blocks mirror the source's `if high_prices and
low_prices` / `if volumes` truthiness guards.  (On an empty close list the
source returns `{}`; see `calculate_all_indicators`.) -/
def indicatorEntries (data : StockData) : List (DictKey × List (Option ℚ)) :=
  let macdR := calculate_macd data.close 12 26 9
  let bbR := calculate_bollinger_bands data.close 20 2
  [(DictKey.ma_5, calculate_ma data.close 5),
   (DictKey.ma_10, calculate_ma data.close 10),
   (DictKey.ma_20, calculate_ma data.close 20),
   (DictKey.ma_60, calculate_ma data.close 60),
   (DictKey.ma_120, calculate_ma data.close 120),
   (DictKey.ma_240, calculate_ma data.close 240),
   (DictKey.ema_12, calculate_ema data.close 12),
   (DictKey.ema_26, calculate_ema data.close 26),
   (DictKey.rsi_14, calculate_rsi data.close 14),
   (DictKey.macd, macdR.macd),
   (DictKey.macd_signal, macdR.signal),
   (DictKey.macd_histogram, macdR.histogram),
   (DictKey.bb_upper, bbR.upper),
   (DictKey.bb_middle, bbR.middle),
   (DictKey.bb_lower, bbR.lower)] ++
  (if data.high.isEmpty || data.low.isEmpty then []
   else
     let kdR := calculate_stochastic data.high data.low data.close 14 3
     [(DictKey.k_value, kdR.k), (DictKey.d_value, kdR.d)]) ++
  (if data.volume.isEmpty then []
   else
     [(DictKey.volume_ma_5, calculate_volume_ma data.volume 5),
      (DictKey.volume_ma_20, calculate_volume_ma data.volume 20),
      (DictKey.volume_ratio, calculate_volume_ratio data.volume 5)]) ++
  (if data.high.isEmpty || data.low.isEmpty then []
   else
     let srR := calculate_support_resistance data.high data.low data.close 20
     [(DictKey.support_level, srR.support),
      (DictKey.resistance_level, srR.resistance)]) ++
  [(DictKey.price_momentum, calculate_price_momentum data.close 10)] ++
  (if data.high.isEmpty || data.low.isEmpty then []
   else [(DictKey.williams_r,
          calculate_williams_r data.high data.low data.close 14)])

/-- `TechnicalIndicators.calculate_all_indicators`: empty dict when the
close list is empty, otherwise the full entry list. -/
def calculate_all_indicators (data : StockData) :
    List (DictKey × List (Option ℚ)) :=
  if data.close.isEmpty then [] else indicatorEntries data

/-- `TechnicalIndicators.calculate_indicator_for_date`: `none` when the
target date is not among the data's dates (the source returns `{}`);
otherwise the per-key values at the date's index, keeping a key only when
the index is inside its list.  The source dict always also carries
`trade_date` (so it is never falsy when the date was found); the model
keeps that key implicit and lists only the indicator entries. -/
def calculate_indicator_for_date (data : StockData) (target_date : ℕ) :
    Option (List (DictKey × Option ℚ)) :=
  if data.dates.contains target_date then
    let target_idx := data.dates.indexOf target_date
    some ((calculate_all_indicators data).filterMap fun kv =>
      if target_idx < kv.2.length then some (kv.1, kv.2.getD target_idx none)
      else none)
  else none

/-- A stored `technical_indicators` row restricted to its nullable
indicator columns: the value `getattr(row, k)` for each dict key that is a
column (`isColumn`); non-column keys are never read or written on a row. -/
def Row : Type := DictKey → Option ℚ

/-- `setattr(existing, k, v)`. -/
def setField (r : Row) (k : DictKey) (v : ℚ) : Row :=
  fun j => if j = k then some v else r j

/-- One iteration of the source's update loop
(`for key, value in indicators.items(): if hasattr(existing, key) and value
is not None: setattr(existing, key, value)`). -/
def applyItem (r : Row) (kv : DictKey × Option ℚ) : Row :=
  match kv.2 with
  | some v => if isColumn kv.1 then setField r kv.1 v else r
  | none => r

/-- The whole update loop over the computed dict. -/
def mergeRow (r : Row) (items : List (DictKey × Option ℚ)) : Row :=
  items.foldl applyItem r

/-- A freshly constructed row: every indicator column NULL. -/
def emptyRow : Row := fun _ => none

/-- `TechnicalIndicator(stock_id=..., symbol=..., **indicators)`: the
SQLAlchemy declarative constructor raises `TypeError` when any keyword is
not a mapped column, storing nothing (`none`); otherwise every provided
key is assigned, starting from NULL defaults. -/
def insertRow (items : List (DictKey × Option ℚ)) : Option Row :=
  if items.any fun kv => !isColumn kv.1 then none
  else some (mergeRow emptyRow items)

/-- The per-(stock, date) storage effect of the indicator upsert in
`calculate_daily_technical_indicators`: merge into an existing row, else
attempt the insert; a constructor `TypeError` is swallowed by the
per-stock handler, leaving the key unstored. -/
def upsertIndicator (existing : Option Row) (items : List (DictKey × Option ℚ)) :
    Option Row :=
  match existing with
  | some r => some (mergeRow r items)
  | none => insertRow items

/-- The argument dict of `TechnicalIndicators.get_latest_signals`, read
through `indicators.get(key, [])`: a key absent from the dict reads as the
empty list.  The `close` key holds raw close prices (the source indexes it
without a `None` check), the others hold indicator lists. -/
structure SignalsArg where
  close : List ℚ
  rsi_14 : List (Option ℚ)
  macd : List (Option ℚ)
  macd_signal : List (Option ℚ)
  ma_20 : List (Option ℚ)
  ma_60 : List (Option ℚ)
  k_value : List (Option ℚ)
  d_value : List (Option ℚ)
  bb_upper : List (Option ℚ)
  bb_lower : List (Option ℚ)
deriving DecidableEq

/-- The source's access pattern `lst and lst[-1] is not None` followed by
`lst[-1]`: `some v` exactly when the list is non-empty and its last entry
is a value. -/
def lastOpt (l : List (Option ℚ)) : Option ℚ := l.getLast?.getD none

/-- (buy, sell, neutral) contributions of one branch of
`get_latest_signals`. -/
def Bucket3 : Type := List String × List String × List String

/-- RSI branch of `get_latest_signals`. -/
def rsiBranch (d : SignalsArg) : Bucket3 :=
  match lastOpt d.rsi_14 with
  | some r =>
    if r < 30 then (["RSI超賣"], [], [])
    else if r > 70 then ([], ["RSI超買"], [])
    else ([], [], ["RSI中性"])
  | none => ([], [], [])

/-- MACD branch of `get_latest_signals`: when both lines are present, a
cross is always emitted (buy on main above signal, else sell). -/
def macdBranch (d : SignalsArg) : Bucket3 :=
  match lastOpt d.macd, lastOpt d.macd_signal with
  | some m, some s =>
    if m > s then (["MACD黃金交叉"], [], []) else ([], ["MACD死亡交叉"], [])
  | _, _ => ([], [], [])

/-- Moving-average-ordering branch of `get_latest_signals`: requires a
non-empty `close` list in the dict besides the two averages. -/
def maBranch (d : SignalsArg) : Bucket3 :=
  match d.close.getLast?, lastOpt d.ma_20, lastOpt d.ma_60 with
  | some current_price, some m20, some m60 =>
    if current_price > m20 ∧ m20 > m60 then (["多頭排列"], [], [])
    else if current_price < m20 ∧ m20 < m60 then ([], ["空頭排列"], [])
    else ([], [], ["均線糾結"])
  | _, _, _ => ([], [], [])

/-- KD branch of `get_latest_signals`. -/
def kdBranch (d : SignalsArg) : Bucket3 :=
  match lastOpt d.k_value, lastOpt d.d_value with
  | some k, some dv =>
    if k < 20 ∧ dv < 20 then (["KD超賣"], [], [])
    else if k > 80 ∧ dv > 80 then ([], ["KD超買"], [])
    else ([], [], ["KD中性"])
  | _, _ => ([], [], [])

/-- Bollinger-band branch of `get_latest_signals`: also requires a
non-empty `close` list in the dict. -/
def bbBranch (d : SignalsArg) : Bucket3 :=
  match d.close.getLast?, lastOpt d.bb_upper, lastOpt d.bb_lower with
  | some current_price, some u, some l =>
    if current_price ≤ l then (["價格觸及布林帶下軌"], [], [])
    else if current_price ≥ u then ([], ["價格觸及布林帶上軌"], [])
    else ([], [], ["價格在布林帶內"])
  | _, _, _ => ([], [], [])

/-- The buy bucket after all five branches, in source append order. -/
def buyBucket (d : SignalsArg) : List String :=
  (rsiBranch d).1 ++ (macdBranch d).1 ++ (maBranch d).1 ++ (kdBranch d).1 ++
    (bbBranch d).1

/-- The sell bucket after all five branches. -/
def sellBucket (d : SignalsArg) : List String :=
  (rsiBranch d).2.1 ++ (macdBranch d).2.1 ++ (maBranch d).2.1 ++
    (kdBranch d).2.1 ++ (bbBranch d).2.1

/-- The neutral bucket after all five branches. -/
def neutralBucket (d : SignalsArg) : List String :=
  (rsiBranch d).2.2 ++ (macdBranch d).2.2 ++ (maBranch d).2.2 ++
    (kdBranch d).2.2 ++ (bbBranch d).2.2

/-- The dict returned by `get_latest_signals`. -/
structure SignalSet where
  buy_signals : List String
  sell_signals : List String
  neutral_signals : List String
  overall_signal : String
  signal_strength : ℕ
deriving DecidableEq

/-- `TechnicalIndicators.get_latest_signals`. -/
def get_latest_signals (d : SignalsArg) : SignalSet :=
  let buy_count := (buyBucket d).length
  let sell_count := (sellBucket d).length
  { buy_signals := buyBucket d
    sell_signals := sellBucket d
    neutral_signals := neutralBucket d
    overall_signal :=
      if buy_count > sell_count then "buy"
      else if sell_count > buy_count then "sell"
      else "neutral"
    signal_strength := ((buy_count : ℤ) - (sell_count : ℤ)).natAbs }

/-- `indicators.get(k, [])` over the entry list of
`calculate_all_indicators`. -/
def lookupInd (entries : List (DictKey × List (Option ℚ))) (k : DictKey) :
    List (Option ℚ) :=
  (entries.lookup k).getD []

/-- The `SignalsArg` that feeding a `calculate_all_indicators` result dict
into `get_latest_signals` produces (the API route `analysis.py` does
exactly this): every indicator key is looked up in the dict, and the
`close` key — which `calculate_all_indicators` never sets — defaults to
the empty list. -/
def signalsArgOfEntries (entries : List (DictKey × List (Option ℚ))) :
    SignalsArg :=
  { close := []
    rsi_14 := lookupInd entries DictKey.rsi_14
    macd := lookupInd entries DictKey.macd
    macd_signal := lookupInd entries DictKey.macd_signal
    ma_20 := lookupInd entries DictKey.ma_20
    ma_60 := lookupInd entries DictKey.ma_60
    k_value := lookupInd entries DictKey.k_value
    d_value := lookupInd entries DictKey.d_value
    bb_upper := lookupInd entries DictKey.bb_upper
    bb_lower := lookupInd entries DictKey.bb_lower }

/-- One stock of the batch with its stored daily bars. -/
structure StockInput where
  id : ℕ
  is_active : Bool
  bars : List RawRecord

/-- One `data_update_logs` row, restricted to the fields the claims
mention (`DataUpdateLog` in `src/backend/app/models/stock.py`;
`records_failed` defaults to 0). -/
structure UpdateLogRow where
  status : String
  records_processed : ℕ
  records_failed : ℕ
deriving DecidableEq

/-- Storage as the batch task sees it: the `technical_indicators` table
keyed by (stock_id, trade_date), and the `data_update_logs` table. -/
structure Storage where
  indicators : List ((ℕ × ℕ) × Row)
  logs : List UpdateLogRow

/-- In-place update of the row at a key of the indicators table. -/
def updateAssoc (l : List ((ℕ × ℕ) × Row)) (key : ℕ × ℕ) (r : Row) :
    List ((ℕ × ℕ) × Row) :=
  l.map fun kv => if kv.1 = key then (key, r) else kv

/-- The storage query of `calculate_daily_technical_indicators`: bars up
to the target date, newest first, at most 240, then reversed to ascending
(`historical_prices.reverse()`). -/
def queryHistorical (bars : List RawRecord) (target_date : ℕ) :
    List RawRecord :=
  ((List.insertionSort rdateGe
      (bars.filter fun r => r.trade_date ≤ target_date)).take 240).reverse

/-- The per-stock body of `calculate_daily_technical_indicators`
(`src/data_collector/schedulers/scheduled_tasks.py`): skip on fewer than
20 bars, on a failed data preparation, on a missing target date, and on an
insert `TypeError`; only a completed merge or insert increments the
processed count (`true` in the second component). -/
def processStock (target_date : ℕ) (st : Storage) (s : StockInput) :
    Storage × Bool :=
  let historical := queryHistorical s.bars target_date
  if historical.length < 20 then (st, false)
  else
    match prepare_stock_data_for_indicators historical with
    | none => (st, false)
    | some data =>
      match calculate_indicator_for_date data target_date with
      | none => (st, false)
      | some items =>
        match st.indicators.lookup (s.id, target_date) with
        | some r =>
          ({ st with
             indicators := updateAssoc st.indicators (s.id, target_date)
               (mergeRow r items) }, true)
        | none =>
          match insertRow items with
          | some row =>
            ({ st with
               indicators := st.indicators ++ [((s.id, target_date), row)] },
              true)
          | none => (st, false)

/-- The dict returned by the batch task (only the keys it sets besides the
date string). -/
structure BatchResult where
  success : Bool
  processed_count : ℕ
deriving DecidableEq

/-- `calculate_daily_technical_indicators(target_date)`: filters to active
stocks having a bar on the target date (the join in the source query),
folds the per-stock body over them — a per-stock failure only skips that
stock — and reports success with the processed count.  The task writes no
`DataUpdateLog` row and keeps no failure count. -/
def calculate_daily_technical_indicators (stocks : List StockInput)
    (target_date : ℕ) (st : Storage) : Storage × BatchResult :=
  let stocks_with_data := stocks.filter fun s =>
    s.is_active && s.bars.any fun r => r.trade_date == target_date
  let out := stocks_with_data.foldl
    (fun acc s =>
      match processStock target_date acc.1 s with
      | (st2, counted) => (st2, acc.2 + if counted then 1 else 0))
    (st, 0)
  (out.1, { success := true, processed_count := out.2 })

/-- `max_retries=3` of the `daily_data_update` Celery task. -/
def maxRetries : ℕ := 3

/-- The retry delay of `daily_data_update`:
`countdown=60 * (self.request.retries + 1)` seconds. -/
def retryCountdown (retries : ℕ) : ℕ := 60 * (retries + 1)

/-- The observable trace of one `daily_data_update` task family: the retry
delays in order, the status each attempt leaves in its `DataUpdateLog`
entry, and the final result's success flag. -/
structure DailyRunTrace where
  delays : List ℕ
  logStatuses : List String
  success : Bool
deriving DecidableEq

/-- The retry discipline of `daily_data_update`, driven by which attempts
fail: a failing attempt marks its log entry failed and, while
`retries < max_retries`, re-raises through `self.retry` with the countdown
above; once the ceiling is reached it returns a failure result instead.
Fuel is `maxRetries + 1 - retries`, so the recursion is total. -/
def dailyDataUpdateGo (fails : ℕ → Bool) : ℕ → ℕ → DailyRunTrace
  | 0, _ => { delays := [], logStatuses := [], success := false }
  | fuel + 1, retries =>
    if fails retries then
      if retries < maxRetries then
        let t := dailyDataUpdateGo fails fuel (retries + 1)
        { delays := retryCountdown retries :: t.delays
          logStatuses := "failed" :: t.logStatuses
          success := t.success }
      else { delays := [], logStatuses := ["failed"], success := false }
    else { delays := [], logStatuses := ["completed"], success := true }

/-- `daily_data_update` as a whole: first attempt at retry counter 0. -/
def daily_data_update (fails : ℕ → Bool) : DailyRunTrace :=
  dailyDataUpdateGo fails (maxRetries + 1) 0

/-- A well-formed daily bar for the concrete runs below. -/
def mkBar (day : ℕ) : RawRecord :=
  { trade_date := day
    open_price := some ((day : ℚ))
    high_price := some (((day + 1 : ℕ) : ℚ))
    low_price := some ((day : ℚ))
    close_price := some ((day : ℚ))
    volume := some 100 }

/-- 20 well-formed bars on days 1..20. -/
def bars20 : List RawRecord := (List.range 20).map fun i => mkBar (i + 1)

/-- 60 well-formed bars on days 1..60. -/
def bars60 : List RawRecord := (List.range 60).map fun i => mkBar (i + 1)

/-- The computed indicator dict for a bar list and target date, as the
batch task builds it (prepare, then `calculate_indicator_for_date`);
the empty list when either step returns the empty dict. -/
def computedItemsAt (bars : List RawRecord) (target_date : ℕ) :
    List (DictKey × Option ℚ) :=
  match prepare_stock_data_for_indicators bars with
  | some data => (calculate_indicator_for_date data target_date).getD []
  | none => []

/-- The `StockData` of the 60 ascending bars. -/
def data60 : StockData :=
  (prepare_stock_data_for_indicators bars60).getD
    { dates := [], open_ := [], high := [], low := [], close := [], volume := [] }

/-- A healthy batch stock: 21 well-formed bars on days 1..21. -/
def goodStock (i : ℕ) : StockInput :=
  { id := i, is_active := true, bars := (List.range 21).map fun j => mkBar (j + 1) }

/-- Batch stock #5 with malformed stored bars: its day-3 bar misses the
close price, so data preparation fails for it. -/
def badStock : StockInput :=
  { id := 5
    is_active := true
    bars := (List.range 21).map fun j =>
      if j = 2 then
        { mkBar (j + 1) with close_price := none }
      else mkBar (j + 1) }

/-- Ten batch stocks, ids 1..10, of which #5 has malformed bars. -/
def tenStocks : List StockInput :=
  (List.range 10).map fun i => if i = 4 then badStock else goodStock (i + 1)

/-- Initial indicator storage for the batch run: a stored row already
exists for every (stock, day-21) key, so the run exercises the update
path. -/
def rows0 : List ((ℕ × ℕ) × Row) :=
  (List.range 10).map fun i => ((i + 1, 21), emptyRow)

/-- The `get_latest_signals` argument of the C6 scenario: oscillator at 25,
convergence main above its signal line, every other signal input absent. -/
def c6arg : SignalsArg :=
  { close := []
    rsi_14 := [some 25]
    macd := [some 1]
    macd_signal := [some 0]
    ma_20 := [], ma_60 := [], k_value := [], d_value := []
    bb_upper := [], bb_lower := [] }

/-- A bar with a non-positive close price but every field present. -/
def negRecord : RawRecord :=
  { trade_date := 1
    open_price := some 5
    high_price := some 6
    low_price := some 4
    close_price := some (-5)
    volume := some 10 }

theorem length_scanMap {σ : Type} (f : σ → ℚ → σ × ℚ) :
    ∀ (s : σ) (xs : List ℚ), (scanMap f s xs).length = xs.length := by
  intro s xs
  induction xs generalizing s with
  | nil => rfl
  | cons x rest ih => simp [scanMap, ih]

theorem length_talibSMA (xs : List ℚ) (p : ℕ) :
    (talibSMA xs p).length = xs.length := by
  unfold talibSMA
  split <;> simp

theorem length_talibEMA (xs : List ℚ) (p : ℕ) :
    (talibEMA xs p).length = xs.length := by
  unfold talibEMA
  split
  · simp
  · rename_i h
    push_neg at h
    simp [length_scanMap]
    omega

theorem length_talibRSI (xs : List ℚ) (p : ℕ) :
    (talibRSI xs p).length = xs.length := by
  unfold talibRSI
  split
  · simp
  · rename_i h
    push_neg at h
    simp [length_scanMap]
    omega

theorem length_optSMA (l : List (Option ℚ)) (p : ℕ) :
    (optSMA l p).length = l.length := by
  unfold optSMA
  simp

theorem length_talibMACD (xs : List ℚ) (fast slow signal : ℕ) :
    (talibMACD xs fast slow signal).1.length = xs.length ∧
    (talibMACD xs fast slow signal).2.1.length = xs.length ∧
    (talibMACD xs fast slow signal).2.2.length = xs.length := by
  unfold talibMACD
  split <;> simp

theorem length_talibBBANDS (xs : List ℚ) (p : ℕ) (w : ℚ) :
    (talibBBANDS xs p w).1.length = xs.length ∧
    (talibBBANDS xs p w).2.1.length = xs.length ∧
    (talibBBANDS xs p w).2.2.length = xs.length := by
  unfold talibBBANDS
  split <;> simp

theorem length_talibSTOCH (highs lows closes : List ℚ) (fastk slowk slowd : ℕ) :
    (talibSTOCH highs lows closes fastk slowk slowd).1.length = closes.length ∧
    (talibSTOCH highs lows closes fastk slowk slowd).2.length = closes.length := by
  unfold talibSTOCH
  split <;> simp [length_optSMA]

theorem length_talibWILLR (highs lows closes : List ℚ) (p : ℕ) :
    (talibWILLR highs lows closes p).length = closes.length := by
  unfold talibWILLR
  split <;> simp

/-- C10: every per-indicator function of the library returns output lists
exactly as long as its input sequence (the close list for the multi-series
functions, the volume list for the volume functions), on the
insufficient-data guard and the computing path alike; the source's
internal-error fallback returns `[None] * len(input)` of the same length by
construction.  Positional alignment with the input dates is therefore
preserved for every input and period. -/
theorem c10_length_preservation :
    (∀ (prices : List ℚ) (p : ℕ), (calculate_ma prices p).length = prices.length) ∧
    (∀ (prices : List ℚ) (p : ℕ), (calculate_ema prices p).length = prices.length) ∧
    (∀ (prices : List ℚ) (p : ℕ), (calculate_rsi prices p).length = prices.length) ∧
    (∀ (prices : List ℚ) (fast slow signal : ℕ),
      (calculate_macd prices fast slow signal).macd.length = prices.length ∧
      (calculate_macd prices fast slow signal).signal.length = prices.length ∧
      (calculate_macd prices fast slow signal).histogram.length = prices.length) ∧
    (∀ (prices : List ℚ) (p : ℕ) (std : ℚ),
      (calculate_bollinger_bands prices p std).upper.length = prices.length ∧
      (calculate_bollinger_bands prices p std).middle.length = prices.length ∧
      (calculate_bollinger_bands prices p std).lower.length = prices.length) ∧
    (∀ (highs lows closes : List ℚ) (kp dp : ℕ),
      (calculate_stochastic highs lows closes kp dp).k.length = closes.length ∧
      (calculate_stochastic highs lows closes kp dp).d.length = closes.length) ∧
    (∀ (volumes : List ℤ) (p : ℕ),
      (calculate_volume_ma volumes p).length = volumes.length) ∧
    (∀ (highs lows closes : List ℚ) (p : ℕ),
      (calculate_support_resistance highs lows closes p).support.length = closes.length ∧
      (calculate_support_resistance highs lows closes p).resistance.length = closes.length) ∧
    (∀ (prices : List ℚ) (p : ℕ),
      (calculate_price_momentum prices p).length = prices.length) ∧
    (∀ (volumes : List ℤ) (p : ℕ),
      (calculate_volume_ratio volumes p).length = volumes.length) ∧
    (∀ (highs lows closes : List ℚ) (p : ℕ),
      (calculate_williams_r highs lows closes p).length = closes.length) := by
  refine ⟨?_, ?_, ?_, ?_, ?_, ?_, ?_, ?_, ?_, ?_, ?_⟩
  · intro prices p
    unfold calculate_ma
    split <;> simp [length_talibSMA]
  · intro prices p
    unfold calculate_ema
    split <;> simp [length_talibEMA]
  · intro prices p
    unfold calculate_rsi
    split <;> simp [length_talibRSI]
  · intro prices fast slow signal
    unfold calculate_macd
    split
    · simp
    · have h := length_talibMACD prices fast slow signal
      split
      rename_i m s hh heq
      rw [heq] at h
      simpa using h
  · intro prices p std
    unfold calculate_bollinger_bands
    split
    · simp
    · have h := length_talibBBANDS prices p std
      split
      rename_i u m l heq
      rw [heq] at h
      simpa using h
  · intro highs lows closes kp dp
    unfold calculate_stochastic
    split
    · simp
    · have h := length_talibSTOCH highs lows closes kp dp dp
      split
      rename_i k d heq
      rw [heq] at h
      simpa using h
  · intro volumes p
    unfold calculate_volume_ma
    split
    · simp
    · rw [length_talibSMA]
      exact List.length_map volumes _
  · intro highs lows closes p
    unfold calculate_support_resistance
    split <;> simp
  · intro prices p
    unfold calculate_price_momentum
    split <;> simp
  · intro volumes p
    unfold calculate_volume_ratio
    simp
  · intro highs lows closes p
    unfold calculate_williams_r
    split <;> simp [length_talibWILLR]

/-- C3: for every period and every input sequence shorter than that period,
each windowed indicator function — simple and exponential moving averages,
the relative-strength oscillator, the convergence-divergence triple (guarded
by its slow period), the bands, the stochastic pair (guarded by its
%K period), the volume moving average, support/resistance and momentum —
returns the all-absent list, one `none` per input position, and being a
total function it raises nothing. -/
theorem c3_insufficient_data_absent :
    (∀ (prices : List ℚ) (p : ℕ), prices.length < p →
      calculate_ma prices p = List.replicate prices.length none) ∧
    (∀ (prices : List ℚ) (p : ℕ), prices.length < p →
      calculate_ema prices p = List.replicate prices.length none) ∧
    (∀ (prices : List ℚ) (p : ℕ), prices.length < p →
      calculate_rsi prices p = List.replicate prices.length none) ∧
    (∀ (prices : List ℚ) (fast slow signal : ℕ), prices.length < slow →
      calculate_macd prices fast slow signal =
        { macd := List.replicate prices.length none
          signal := List.replicate prices.length none
          histogram := List.replicate prices.length none }) ∧
    (∀ (prices : List ℚ) (p : ℕ) (std : ℚ), prices.length < p →
      calculate_bollinger_bands prices p std =
        { upper := List.replicate prices.length none
          middle := List.replicate prices.length none
          lower := List.replicate prices.length none }) ∧
    (∀ (highs lows closes : List ℚ) (kp dp : ℕ), highs.length < kp →
      calculate_stochastic highs lows closes kp dp =
        { k := List.replicate closes.length none
          d := List.replicate closes.length none }) ∧
    (∀ (volumes : List ℤ) (p : ℕ), volumes.length < p →
      calculate_volume_ma volumes p = List.replicate volumes.length none) ∧
    (∀ (highs lows closes : List ℚ) (p : ℕ), closes.length < p →
      calculate_support_resistance highs lows closes p =
        { support := List.replicate closes.length none
          resistance := List.replicate closes.length none }) ∧
    (∀ (prices : List ℚ) (p : ℕ), prices.length < p →
      calculate_price_momentum prices p = List.replicate prices.length none) := by
  refine ⟨?_, ?_, ?_, ?_, ?_, ?_, ?_, ?_, ?_⟩ <;>
  · intros
    simp only [calculate_ma, calculate_ema, calculate_rsi, calculate_macd,
      calculate_bollinger_bands, calculate_stochastic, calculate_volume_ma,
      calculate_support_resistance, calculate_price_momentum]
    rw [if_pos (by assumption)]

/-- Witness for C3 at a two-element sequence and period 3 (one element for
the volume functions): every hypothesis discharged at the concrete input. -/
theorem c3_insufficient_data_absent_witness :
    (([(1 : ℚ), 2].length < 3 ∧
        calculate_ma [(1 : ℚ), 2] 3 = List.replicate 2 none) ∧
      calculate_ema [(1 : ℚ), 2] 3 = List.replicate 2 none ∧
      calculate_rsi [(1 : ℚ), 2] 3 = List.replicate 2 none) ∧
    (calculate_macd [(1 : ℚ), 2] 12 3 9 =
        { macd := List.replicate 2 none, signal := List.replicate 2 none
          histogram := List.replicate 2 none } ∧
      calculate_bollinger_bands [(1 : ℚ), 2] 3 2 =
        { upper := List.replicate 2 none, middle := List.replicate 2 none
          lower := List.replicate 2 none } ∧
      calculate_stochastic [(1 : ℚ), 2] [(1 : ℚ), 2] [(1 : ℚ), 2] 3 3 =
        { k := List.replicate 2 none, d := List.replicate 2 none }) ∧
    (calculate_volume_ma [(7 : ℤ)] 3 = List.replicate 1 none ∧
      calculate_support_resistance [(1 : ℚ), 2] [(1 : ℚ), 2] [(1 : ℚ), 2] 3 =
        { support := List.replicate 2 none, resistance := List.replicate 2 none } ∧
      calculate_price_momentum [(1 : ℚ), 2] 3 = List.replicate 2 none) := by
  refine ⟨⟨⟨by decide, ?_⟩, ?_, ?_⟩, ⟨?_, ?_, ?_⟩, ⟨?_, ?_, ?_⟩⟩
  · exact c3_insufficient_data_absent.1 [1, 2] 3 (by decide)
  · exact c3_insufficient_data_absent.2.1 [1, 2] 3 (by decide)
  · exact c3_insufficient_data_absent.2.2.1 [1, 2] 3 (by decide)
  · exact c3_insufficient_data_absent.2.2.2.1 [1, 2] 12 3 9 (by decide)
  · exact c3_insufficient_data_absent.2.2.2.2.1 [1, 2] 3 2 (by decide)
  · exact c3_insufficient_data_absent.2.2.2.2.2.1 [1, 2] [1, 2] [1, 2] 3 3
      (by decide)
  · exact c3_insufficient_data_absent.2.2.2.2.2.2.1 [7] 3 (by decide)
  · exact c3_insufficient_data_absent.2.2.2.2.2.2.2.1 [1, 2] [1, 2] [1, 2] 3
      (by decide)
  · exact c3_insufficient_data_absent.2.2.2.2.2.2.2.2 [1, 2] 3 (by decide)

/-- C7: for every close-price sequence of fewer than 15 elements the
14-period relative-strength oscillator is absent at every position: below
14 closes the source's own guard returns the all-`None` list, and at
exactly 14 closes TA-Lib has no valid output index yet (its first value
needs 14 differences, hence 15 closes), so every entry is warm-up NaN. -/
theorem c7_rsi_threshold (closes : List ℚ) (h : closes.length < 15) :
    calculate_rsi closes 14 = List.replicate closes.length none := by
  unfold calculate_rsi
  split
  · rfl
  · rename_i hge
    unfold talibRSI
    rw [if_pos (Or.inr (by omega))]

/-- Witness for C7 at a 14-element sequence (the boundary case where the
guard alone does not fire). -/
theorem c7_rsi_threshold_witness :
    (List.replicate 14 (1 : ℚ)).length < 15 ∧
    calculate_rsi (List.replicate 14 (1 : ℚ)) 14 =
      List.replicate (List.replicate 14 (1 : ℚ)).length none :=
  ⟨by decide, c7_rsi_threshold (List.replicate 14 (1 : ℚ)) (by decide)⟩

theorem applyItem_ne (r : Row) (k1 : DictKey) (v : Option ℚ) (k : DictKey)
    (h : k ≠ k1) : applyItem r (k1, v) k = r k := by
  unfold applyItem
  cases v with
  | none => rfl
  | some x =>
    simp only []
    split
    · unfold setField
      rw [if_neg h]
    · rfl

theorem mergeRow_no_key (items : List (DictKey × Option ℚ)) (k : DictKey) :
    ∀ r : Row, (∀ kv ∈ items, kv.1 ≠ k) → mergeRow r items k = r k := by
  induction items with
  | nil => intro r _; rfl
  | cons kv rest ih =>
    intro r h
    have hh : kv.1 ≠ k := h kv (List.mem_cons_self kv rest)
    have ht : ∀ kv2 ∈ rest, kv2.1 ≠ k := fun kv2 hm => h kv2 (List.mem_cons_of_mem kv hm)
    show mergeRow (applyItem r kv) rest k = r k
    rw [ih (applyItem r kv) ht]
    exact applyItem_ne r kv.1 kv.2 k (fun he => hh he.symm) |>.trans rfl

/-- C2: when a row already exists for the (instrument, trade-date) key, the
update loop overwrites exactly the columns whose newly computed value is
non-null; a column whose computed value is null, or which the computed dict
does not mention at all, keeps its stored value.  (A key the computation
never produces is a `List.lookup` miss; a produced-but-null key looks up to
`some none`.) -/
theorem c2_merge_overwrites_only_non_null (r : Row)
    (items : List (DictKey × Option ℚ)) (k : DictKey)
    (hnd : (items.map Prod.fst).Nodup) (hcol : isColumn k = true) :
    upsertIndicator (some r) items = some (mergeRow r items) ∧
    (∀ v : ℚ, items.lookup k = some (some v) → mergeRow r items k = some v) ∧
    (items.lookup k = some none → mergeRow r items k = r k) ∧
    (items.lookup k = none → mergeRow r items k = r k) := by
  refine ⟨rfl, ?_⟩
  induction items generalizing r with
  | nil =>
    refine ⟨?_, ?_, ?_⟩
    · intro v hv; simp [List.lookup] at hv
    · intro hv; simp [List.lookup] at hv
    · intro _; rfl
  | cons kv rest ih =>
    obtain ⟨k1, v1⟩ := kv
    simp only [List.map_cons, List.nodup_cons] at hnd
    obtain ⟨hk1, hrest⟩ := hnd
    by_cases hkk : k = k1
    · subst hkk
      have hnomem : ∀ kv2 ∈ rest, kv2.1 ≠ k := by
        intro kv2 hm he
        exact hk1 (he ▸ List.mem_map_of_mem Prod.fst hm)
      refine ⟨?_, ?_, ?_⟩
      · intro v hv
        rw [List.lookup, beq_self_eq_true] at hv
        simp only [Option.some_inj] at hv
        show mergeRow (applyItem r (k, v1)) rest k = some v
        rw [mergeRow_no_key rest k _ hnomem, hv]
        unfold applyItem
        simp only [hcol, if_true]
        unfold setField
        rw [if_pos rfl]
      · intro hv
        rw [List.lookup, beq_self_eq_true] at hv
        simp only [Option.some_inj] at hv
        show mergeRow (applyItem r (k, v1)) rest k = r k
        rw [mergeRow_no_key rest k _ hnomem, hv]
        rfl
      · intro hv
        rw [List.lookup, beq_self_eq_true] at hv
        exact absurd hv (by simp)
    · have hbeq : (k == k1) = false := beq_false_of_ne hkk
      have hlk : List.lookup k ((k1, v1) :: rest) = List.lookup k rest := by
        rw [List.lookup, hbeq]
      have hmr : mergeRow r ((k1, v1) :: rest) k
          = mergeRow (applyItem r (k1, v1)) rest k := rfl
      have happ : applyItem r (k1, v1) k = r k :=
        applyItem_ne r k1 v1 k hkk
      obtain ⟨ih1, ih2, ih3⟩ := ih (applyItem r (k1, v1)) hrest
      refine ⟨?_, ?_, ?_⟩
      · intro v hv
        rw [hlk] at hv
        rw [hmr]
        exact ih1 v hv
      · intro hv
        rw [hlk] at hv
        rw [hmr, ih2 hv, happ]
      · intro hv
        rw [hlk] at hv
        rw [hmr, ih3 hv, happ]

/-- Witness for C2: a two-key computed dict over the empty row — the
non-null `ma_5` overwrites, the null `ma_10` and the unmentioned `ma_20`
keep the stored (null) values. -/
theorem c2_merge_overwrites_only_non_null_witness :
    (([(DictKey.ma_5, some (1 : ℚ)), (DictKey.ma_10, (none : Option ℚ))].map
        Prod.fst).Nodup ∧
      isColumn DictKey.ma_5 = true ∧ isColumn DictKey.ma_10 = true ∧
      isColumn DictKey.ma_20 = true) ∧
    mergeRow emptyRow [(DictKey.ma_5, some (1 : ℚ)), (DictKey.ma_10, none)]
        DictKey.ma_5 = some 1 ∧
    mergeRow emptyRow [(DictKey.ma_5, some (1 : ℚ)), (DictKey.ma_10, none)]
        DictKey.ma_10 = emptyRow DictKey.ma_10 ∧
    mergeRow emptyRow [(DictKey.ma_5, some (1 : ℚ)), (DictKey.ma_10, none)]
        DictKey.ma_20 = emptyRow DictKey.ma_20 :=
  ⟨⟨by decide, by decide, by decide, by decide⟩,
    (c2_merge_overwrites_only_non_null emptyRow _ DictKey.ma_5 (by decide)
        (by decide)).2.1 1 (by decide),
    (c2_merge_overwrites_only_non_null emptyRow _ DictKey.ma_10 (by decide)
        (by decide)).2.2.1 (by decide),
    (c2_merge_overwrites_only_non_null emptyRow _ DictKey.ma_20 (by decide)
        (by decide)).2.2.2 (by decide)⟩

/-- C1 (failing input): for a stock with 20 well-formed bars and no stored
indicator row yet, the computed dict contains the keys `volume_ratio`,
`price_momentum` and `williams_r`, which are not columns of the
`TechnicalIndicator` model, so the insert path
`TechnicalIndicator(stock_id=..., symbol=..., **indicators)` raises a
`TypeError` that the per-stock handler swallows: the first call stores
nothing, so no call ever establishes the row this claim's first call is
supposed to establish. -/
theorem c1_first_call_inserts_nothing :
    (computedItemsAt bars20 20).any (fun kv => !isColumn kv.1) = true ∧
    upsertIndicator none (computedItemsAt bars20 20) = none ∧
    (computedItemsAt bars20 20).length ≠ 0 := by
  refine ⟨by decide, rfl, by decide⟩

/-- C4 counterexample: a batch of 10 active instruments each with a bar on
the target date, instrument #5 with malformed bars (a missing close field),
over a storage that already holds a row per key.  The run completes with
`success` and `processed_count = 9` — the failing instrument is only
skipped — but it writes no `DataUpdateLog` row at all, so no
`records_failed = 1` (or any failure count) is recorded anywhere, contrary
to the claim. -/
theorem c4_no_failure_count_counterexample :
    (calculate_daily_technical_indicators tenStocks 21
        { indicators := rows0, logs := [] }).2 =
      { success := true, processed_count := 9 } ∧
    (calculate_daily_technical_indicators tenStocks 21
        { indicators := rows0, logs := [] }).1.logs = [] := by
  refine ⟨by decide, rfl⟩

theorem processStock_preserves_logs (target_date : ℕ) (st : Storage)
    (s : StockInput) : (processStock target_date st s).1.logs = st.logs := by
  unfold processStock
  dsimp only
  repeat' split
  all_goals rfl

theorem batch_fold_preserves_logs (target_date : ℕ)
    (l : List StockInput) :
    ∀ (st : Storage) (n : ℕ),
      (l.foldl
        (fun acc s =>
          match processStock target_date acc.1 s with
          | (st2, counted) => (st2, acc.2 + if counted then 1 else 0))
        (st, n)).1.logs = st.logs := by
  induction l with
  | nil => intro st n; rfl
  | cons s rest ih =>
    intro st n
    rw [List.foldl_cons]
    have hps := processStock_preserves_logs target_date st s
    rcases hp : processStock target_date st s with ⟨st2, counted⟩
    rw [hp] at hps
    simp only []
    rw [ih st2 (n + if counted then 1 else 0)]
    exact hps

/-- C4 as amended: a failure while processing one instrument never aborts
the processing of the other instruments — the per-instrument error is
caught and that instrument is merely skipped without being counted — and
the task always returns a success result whose `processed_count` counts
only the instruments whose upsert completed; but the task writes no
`DataUpdateLog` row and keeps no failure count (`records_failed` stays at
its column default 0), so in the 10-instrument scenario with one malformed
instrument it reports `processed_count = 9` and nothing else. -/
theorem c4_batch_isolation_amended :
    (∀ (stocks : List StockInput) (target_date : ℕ) (st : Storage),
      (calculate_daily_technical_indicators stocks target_date st).2.success
          = true ∧
      (calculate_daily_technical_indicators stocks target_date st).1.logs
          = st.logs) ∧
    (calculate_daily_technical_indicators tenStocks 21
        { indicators := rows0, logs := [] }).2.processed_count = 9 := by
  refine ⟨?_, by decide⟩
  intro stocks target_date st
  refine ⟨rfl, ?_⟩
  unfold calculate_daily_technical_indicators
  exact batch_fold_preserves_logs target_date _ st 0

/-- C8 counterexample: the retry delays of `daily_data_update` are
`countdown = 60 * (retries + 1)` — 60 s, 120 s, 180 s — an arithmetic, not
a multiplicative, progression: no single growth factor carries each delay
to the next, so the backoff is not exponential. -/
theorem c8_backoff_not_exponential :
    ¬ ∃ b : ℚ, ((retryCountdown 1 : ℚ) = b * (retryCountdown 0 : ℚ) ∧
      (retryCountdown 2 : ℚ) = b * (retryCountdown 1 : ℚ)) := by
  rintro ⟨b, h1, h2⟩
  simp only [retryCountdown] at h1 h2
  push_cast at h1 h2
  have hb : b = 2 := by linarith
  rw [hb] at h2
  norm_num at h2

theorem dailyDataUpdateGo_delays_le (fails : ℕ → Bool) :
    ∀ (fuel retries : ℕ),
      (dailyDataUpdateGo fails fuel retries).delays.length ≤
        maxRetries - retries := by
  intro fuel
  induction fuel with
  | zero => intro retries; simp [dailyDataUpdateGo]
  | succ n ih =>
    intro retries
    unfold dailyDataUpdateGo
    split
    · split
      · have := ih (retries + 1)
        simp only [List.length_cons]
        omega
      · simp
    · simp

/-- C8 as amended: on repeated total failure `daily_data_update` retries up
to the fixed ceiling `max_retries = 3` with a linearly growing delay of
`60 * (retries + 1)` seconds — the trace of an always-failing run is
exactly the delays 60, 120, 180, four attempts each marking its log entry
failed, and a final failure result with no further retry; the number of
retry delays never exceeds the ceiling. -/
theorem c8_linear_backoff_amended :
    daily_data_update (fun _ => true) =
      { delays := [60, 120, 180]
        logStatuses := ["failed", "failed", "failed", "failed"]
        success := false } ∧
    (∀ r : ℕ, retryCountdown (r + 1) = retryCountdown r + 60) ∧
    (∀ fails : ℕ → Bool,
      (daily_data_update fails).delays.length ≤ maxRetries) := by
  refine ⟨by decide, ?_, ?_⟩
  · intro r
    simp [retryCountdown]
    ring
  · intro fails
    have := dailyDataUpdateGo_delays_le fails (maxRetries + 1) 0
    simpa [daily_data_update] using this

theorem optList_eq_none_of_mem {α : Type} {l : List (Option α)}
    (h : none ∈ l) : optList l = none := by
  induction l with
  | nil => simp at h
  | cons o rest ih =>
    cases o with
    | none => rfl
    | some x =>
      rcases List.mem_cons.mp h with h1 | h2
      · exact absurd h1 (by simp)
      · show (match optList rest with
          | some xs => some (x :: xs)
          | none => none) = none
        rw [ih h2]

theorem collectFields_dates {sorted_records : List RawRecord} {d : StockData}
    (h : collectFields sorted_records = some d) :
    d.dates = sorted_records.map fun r => r.trade_date := by
  unfold collectFields at h
  rcases h1 : optList (sorted_records.map fun r => r.open_price) with _ | os <;>
    rw [h1] at h
  · simp at h
  rcases h2 : optList (sorted_records.map fun r => r.high_price) with _ | hs <;>
    rw [h2] at h
  · simp at h
  rcases h3 : optList (sorted_records.map fun r => r.low_price) with _ | ls <;>
    rw [h3] at h
  · simp at h
  rcases h4 : optList (sorted_records.map fun r => r.close_price) with _ | cs <;>
    rw [h4] at h
  · simp at h
  rcases h5 : optList (sorted_records.map fun r => r.volume) with _ | vs <;>
    rw [h5] at h
  · simp at h
  simp only [Option.some_inj] at h
  rw [← h]

theorem collectFields_none_of_missing {sorted_records : List RawRecord}
    {r : RawRecord} (hr : r ∈ sorted_records)
    (hmiss : r.open_price.isNone || r.high_price.isNone || r.low_price.isNone
      || r.close_price.isNone || r.volume.isNone) :
    collectFields sorted_records = none := by
  unfold collectFields
  simp only [Bool.or_eq_true, Option.isNone_iff_eq_none] at hmiss
  rcases h1 : optList (sorted_records.map fun r => r.open_price) with _ | os
  · rw [h1]
  rcases h2 : optList (sorted_records.map fun r => r.high_price) with _ | hs
  · rw [h1, h2]
  rcases h3 : optList (sorted_records.map fun r => r.low_price) with _ | ls
  · rw [h1, h2, h3]
  rcases h4 : optList (sorted_records.map fun r => r.close_price) with _ | cs
  · rw [h1, h2, h3, h4]
  rcases h5 : optList (sorted_records.map fun r => r.volume) with _ | vs
  · rw [h1, h2, h3, h4, h5]
  exfalso
  rcases hmiss with ((((m1 | m2) | m3) | m4) | m5)
  · rw [optList_eq_none_of_mem
      (m1 ▸ List.mem_map_of_mem (fun r => r.open_price) hr)] at h1
    exact absurd h1 (by simp)
  · rw [optList_eq_none_of_mem
      (m2 ▸ List.mem_map_of_mem (fun r => r.high_price) hr)] at h2
    exact absurd h2 (by simp)
  · rw [optList_eq_none_of_mem
      (m3 ▸ List.mem_map_of_mem (fun r => r.low_price) hr)] at h3
    exact absurd h3 (by simp)
  · rw [optList_eq_none_of_mem
      (m4 ▸ List.mem_map_of_mem (fun r => r.close_price) hr)] at h4
    exact absurd h4 (by simp)
  · rw [optList_eq_none_of_mem
      (m5 ▸ List.mem_map_of_mem (fun r => r.volume) hr)] at h5
    exact absurd h5 (by simp)

/-- C9 counterexample: a bar with every field present but a non-positive
close price (-5) is accepted silently — `prepare_stock_data_for_indicators`
returns a populated dict instead of failing with a `ValidationError` as the
claim requires. -/
theorem c9_accepts_nonpositive_price_counterexample :
    negRecord.close_price = some (-5) ∧
    (prepare_stock_data_for_indicators [negRecord]).isSome = true := by
  refine ⟨rfl, by decide⟩

/-- C9 as amended: the construction always sorts by trade date ascending,
but it performs no validation: a bar whose price or volume fields are all
present passes whatever their sign (see the counterexample), and a bar
missing a required field makes the whole construction return the empty
result (`none`) — the comprehension's exception is swallowed — rather than
raise a `ValidationError`. -/
theorem c9_sorts_but_never_validates_amended :
    (∀ (rs : List RawRecord) (d : StockData),
      prepare_stock_data_for_indicators rs = some d →
      List.Sorted (fun a b : ℕ => a ≤ b) d.dates) ∧
    (∀ (rs : List RawRecord) (r : RawRecord), r ∈ rs →
      (r.open_price.isNone || r.high_price.isNone || r.low_price.isNone
        || r.close_price.isNone || r.volume.isNone) = true →
      prepare_stock_data_for_indicators rs = none) := by
  constructor
  · intro rs d h
    unfold prepare_stock_data_for_indicators at h
    split at h
    · exact absurd h (by simp)
    · rw [collectFields_dates h]
      refine List.pairwise_map.mpr ?_
      exact (List.sorted_insertionSort rdateLe rs).imp fun hab => hab
  · intro rs r hr hmiss
    have hne : rs.isEmpty = false := by
      cases rs
      · simp at hr
      · rfl
    unfold prepare_stock_data_for_indicators
    rw [if_neg (by simp [hne])]
    exact collectFields_none_of_missing
      ((List.perm_insertionSort rdateLe rs).mem_iff.mpr hr) hmiss

/-- Witness for C9 as amended: two out-of-order bars come out sorted, and a
single bar missing its open price yields the empty result. -/
theorem c9_sorts_but_never_validates_amended_witness :
    prepare_stock_data_for_indicators [mkBar 2, mkBar 1] = some
      { dates := [1, 2], open_ := [1, 2], high := [2, 3], low := [1, 2],
        close := [1, 2], volume := [100, 100] } ∧
    List.Sorted (fun a b : ℕ => a ≤ b)
      (StockData.dates
        { dates := [1, 2], open_ := [1, 2], high := [2, 3], low := [1, 2],
          close := [1, 2], volume := [100, 100] }) ∧
    prepare_stock_data_for_indicators
      [{ trade_date := 2, open_price := none, high_price := some 1,
         low_price := some 1, close_price := some 1, volume := some 1 }] =
      none := by
  have hA : prepare_stock_data_for_indicators [mkBar 2, mkBar 1] = some
      { dates := [1, 2], open_ := [1, 2], high := [2, 3], low := [1, 2],
        close := [1, 2], volume := [100, 100] } := by decide
  refine ⟨hA, c9_sorts_but_never_validates_amended.1 _ _ hA, ?_⟩
  exact c9_sorts_but_never_validates_amended.2
    [{ trade_date := 2, open_price := none, high_price := some 1,
       low_price := some 1, close_price := some 1, volume := some 1 }]
    { trade_date := 2, open_price := none, high_price := some 1,
      low_price := some 1, close_price := some 1, volume := some 1 }
    (by simp) (by decide)

theorem buyBucket_cases {d : SignalsArg} {s : String} (h : s ∈ buyBucket d) :
    s = "RSI超賣" ∨ s = "MACD黃金交叉" ∨ s ∈ (maBranch d).1 ∨ s = "KD超賣" ∨
      s = "價格觸及布林帶下軌" := by
  unfold buyBucket at h
  simp only [List.mem_append] at h
  rcases h with ((((h | h) | h) | h) | h)
  · left
    unfold rsiBranch at h
    repeat' split at h
    all_goals simp_all
  · right; left
    unfold macdBranch at h
    repeat' split at h
    all_goals simp_all
  · right; right; left; exact h
  · right; right; right; left
    unfold kdBranch at h
    repeat' split at h
    all_goals simp_all
  · right; right; right; right
    unfold bbBranch at h
    repeat' split at h
    all_goals simp_all

theorem sellBucket_cases {d : SignalsArg} {s : String} (h : s ∈ sellBucket d) :
    s = "RSI超買" ∨ s = "MACD死亡交叉" ∨ s ∈ (maBranch d).2.1 ∨ s = "KD超買" ∨
      s = "價格觸及布林帶上軌" := by
  unfold sellBucket at h
  simp only [List.mem_append] at h
  rcases h with ((((h | h) | h) | h) | h)
  · left
    unfold rsiBranch at h
    repeat' split at h
    all_goals simp_all
  · right; left
    unfold macdBranch at h
    repeat' split at h
    all_goals simp_all
  · right; right; left; exact h
  · right; right; right; left
    unfold kdBranch at h
    repeat' split at h
    all_goals simp_all
  · right; right; right; right
    unfold bbBranch at h
    repeat' split at h
    all_goals simp_all

theorem neutralBucket_cases {d : SignalsArg} {s : String}
    (h : s ∈ neutralBucket d) :
    s = "RSI中性" ∨ s ∈ (maBranch d).2.2 ∨ s = "KD中性" ∨
      s = "價格在布林帶內" := by
  unfold neutralBucket at h
  simp only [List.mem_append] at h
  rcases h with ((((h | h) | h) | h) | h)
  · left
    unfold rsiBranch at h
    repeat' split at h
    all_goals simp_all
  · exfalso
    unfold macdBranch at h
    repeat' split at h
    all_goals simp_all
  · right; left; exact h
  · right; right; left
    unfold kdBranch at h
    repeat' split at h
    all_goals simp_all
  · right; right; right
    unfold bbBranch at h
    repeat' split at h
    all_goals simp_all

theorem maBranch_empty_of_close_nil {d : SignalsArg} (h : d.close = []) :
    maBranch d = ([], [], []) := by
  unfold maBranch
  rw [h]
  rfl

/-- C5 (failing input): for the 60 rising bars the latest 20- and 60-period
moving averages are both present in the `calculate_all_indicators` dict,
yet feeding that dict to `get_latest_signals` — as the analysis API does —
emits none of the three moving-average-ordering outcomes, because the
branch also reads `indicators.get('close', [])` and
`calculate_all_indicators` never sets a `close` key: the branch is dead on
every real input, contrary to the claim that exactly one of the three
outcomes always occurs. -/
theorem c5_ma_ordering_branch_dead :
    (lastOpt (lookupInd (calculate_all_indicators data60) DictKey.ma_20)).isSome
        = true ∧
    (lastOpt (lookupInd (calculate_all_indicators data60) DictKey.ma_60)).isSome
        = true ∧
    (signalsArgOfEntries (calculate_all_indicators data60)).close = [] ∧
    "多頭排列" ∉ (get_latest_signals
        (signalsArgOfEntries (calculate_all_indicators data60))).buy_signals ∧
    "空頭排列" ∉ (get_latest_signals
        (signalsArgOfEntries (calculate_all_indicators data60))).sell_signals ∧
    "均線糾結" ∉ (get_latest_signals
        (signalsArgOfEntries (calculate_all_indicators data60))).neutral_signals := by
  have hclose : (signalsArgOfEntries (calculate_all_indicators data60)).close
      = [] := rfl
  have hma := maBranch_empty_of_close_nil hclose
  refine ⟨by decide, by decide, hclose, ?_, ?_, ?_⟩
  · intro hmem
    rcases buyBucket_cases hmem with h | h | h | h | h
    · exact absurd h (by decide)
    · exact absurd h (by decide)
    · rw [hma] at h
      simp at h
    · exact absurd h (by decide)
    · exact absurd h (by decide)
  · intro hmem
    rcases sellBucket_cases hmem with h | h | h | h | h
    · exact absurd h (by decide)
    · exact absurd h (by decide)
    · rw [hma] at h
      simp at h
    · exact absurd h (by decide)
    · exact absurd h (by decide)
  · intro hmem
    rcases neutralBucket_cases hmem with h | h | h | h
    · exact absurd h (by decide)
    · rw [hma] at h
      simp at h
    · exact absurd h (by decide)
    · exact absurd h (by decide)

/-- C6: the overall classification of `get_latest_signals` is exactly the
majority of the buy-bucket size over the sell-bucket size (tie: neutral)
and the strength score is the absolute difference of the two sizes; and in
the concrete scenario — oscillator at 25, convergence main above its
signal line, every other signal input absent — the buy bucket holds
exactly the oscillator entry and the convergence entry, the overall signal
is "buy" and the strength is 2. -/
theorem c6_majority_and_strength :
    (∀ d : SignalsArg,
      ((get_latest_signals d).overall_signal = "buy" ↔
        (get_latest_signals d).sell_signals.length
          < (get_latest_signals d).buy_signals.length) ∧
      ((get_latest_signals d).overall_signal = "sell" ↔
        (get_latest_signals d).buy_signals.length
          < (get_latest_signals d).sell_signals.length) ∧
      ((get_latest_signals d).overall_signal = "neutral" ↔
        (get_latest_signals d).buy_signals.length
          = (get_latest_signals d).sell_signals.length) ∧
      (get_latest_signals d).signal_strength =
        (((get_latest_signals d).buy_signals.length : ℤ)
          - ((get_latest_signals d).sell_signals.length : ℤ)).natAbs) ∧
    get_latest_signals c6arg =
      { buy_signals := ["RSI超賣", "MACD黃金交叉"], sell_signals := []
        neutral_signals := [], overall_signal := "buy"
        signal_strength := 2 } := by
  constructor
  · intro d
    simp only [get_latest_signals]
    rcases Nat.lt_trichotomy (buyBucket d).length (sellBucket d).length with
      h | h | h
    · rw [if_neg (by omega), if_pos (by omega)]
      refine ⟨?_, ?_, ?_, by trivial⟩
      · constructor
        · intro he; exact absurd he (by decide)
        · intro hl; omega
      · constructor
        · intro _; exact h
        · intro _; rfl
      · constructor
        · intro he; exact absurd he (by decide)
        · intro hl; omega
    · rw [if_neg (by omega), if_neg (by omega)]
      refine ⟨?_, ?_, ?_, by trivial⟩
      · constructor
        · intro he; exact absurd he (by decide)
        · intro hl; omega
      · constructor
        · intro he; exact absurd he (by decide)
        · intro hl; omega
      · constructor
        · intro _; exact h
        · intro _; rfl
    · rw [if_pos (by omega)]
      refine ⟨?_, ?_, ?_, by trivial⟩
      · constructor
        · intro _; exact h
        · intro _; rfl
      · constructor
        · intro he; exact absurd he (by decide)
        · intro hl; omega
      · constructor
        · intro he; exact absurd he (by decide)
        · intro hl; omega
  · decide
